import Mathlib

/-
  Verification development for the aiflows distributed flow-invocation layer.

  Shallow embedding of:
  - src/aiflows/utils/coflows_utils.py        (FlowFuture, push_to_flow)
  - src/aiflows/utils/colink_protocol_utils.py (run_simpleinvoke_targetflow)
  - src/flows/flow_launchers/flow_API_launcher.py (FlowMultiThreadedAPILauncher.predict)

  Python dictionaries are modelled as association lists with Python
  assignment semantics (overwrite in place, append new keys at the end);
  exceptions are modelled with Except String; external substrate effects
  (colink) are recorded as an operation trace; external oracles (the flow,
  the interfaces, uuid generation, queue contents) are environment fields.
-/

/-- Generic lookup in an association-list dictionary (Python `d[k]` / `k in d`). -/
def lookupKV {α : Type} : List (String × α) → String → Option α
  | [], _ => none
  | (k', v') :: rest, k => if k' = k then some v' else lookupKV rest k

/-- Python dictionary assignment `d[k] = v`: overwrite in place if the key is
present, otherwise append the new key at the end (insertion order preserved). -/
def setKV {α : Type} : List (String × α) → String → α → List (String × α)
  | [], k, v => [(k, v)]
  | (k', v') :: rest, k, v =>
      if k' = k then (k, v) :: rest else (k', v') :: setKV rest k v

/-- Python membership test `k in d`. -/
def hasKV {α : Type} (d : List (String × α)) (k : String) : Bool :=
  (lookupKV d k).isSome

theorem lookupKV_setKV_same {α : Type} (d : List (String × α)) (k : String) (v : α) :
    lookupKV (setKV d k v) k = some v := by
  induction d with
  | nil => simp [setKV, lookupKV]
  | cons hd tl ih =>
      obtain ⟨k', v'⟩ := hd
      by_cases h : k' = k
      · simp [setKV, h, lookupKV]
      · simp [setKV, h, lookupKV, ih]

theorem lookupKV_setKV_other {α : Type} (d : List (String × α)) (k k' : String) (v : α)
    (h : k ≠ k') : lookupKV (setKV d k' v) k = lookupKV d k := by
  induction d with
  | nil => simp [setKV, lookupKV, Ne.symm h]
  | cons hd tl ih =>
      obtain ⟨k0, v0⟩ := hd
      by_cases h0 : k0 = k'
      · subst h0
        simp [setKV, lookupKV, Ne.symm h]
      · simp [setKV, h0, lookupKV, ih]

/-- JSON-equivalent structured value (payload model from the spec data model). -/
inductive Value : Type where
  | vnull : Value
  | vstr : String → Value
  | vnat : Nat → Value
  | vlist : List Value → Value
  | vmap : List (String × Value) → Value

/-- A message envelope: `data` is the Python `message.data` dictionary. -/
structure Msg : Type where
  data : List (String × Value)

/-- Participant in a spawned colink task (CL.Participant). -/
structure Participant : Type where
  user_id : String
  role : String

/-- Substrate operations issued to the coordination substrate, in order.
Payload bytes are modelled by the message they serialize (exact round-trip). -/
inductive Op : Type where
  | createEntry (key : String) (payload : Msg)
  | runTask (kind : String) (flowId : String) (messageId : String)
      (parts : List Participant) (durable : Bool)
  | subscribe (queueName : String)
  | recvVariable (nm : String)
  | updateEntry (key : String) (payload : Msg)
  | queueRead
  | sendVariable (nm : String) (payload : Msg)

def Op.isRunTask : Op → Bool
  | .runTask _ _ _ _ _ => true
  | _ => false

def Op.isCreateEntryOn (key : String) : Op → Bool
  | .createEntry k _ => k = key
  | _ => false

def Op.isSubscribeOn (queueName : String) : Op → Bool
  | .subscribe q => q = queueName
  | _ => false

def Op.isUpdateEntryOn (key : String) : Op → Bool
  | .updateEntry k _ => k = key
  | _ => false

def Op.isSendVariable : Op → Bool
  | .sendVariable _ _ => true
  | _ => false

/-- `precedes p q tr`: every operation satisfying `q` is strictly preceded in
the trace by an operation satisfying `p`. -/
def precedes (p q : Op → Bool) (tr : List Op) : Prop :=
  ∀ j o, tr.get? j = some o → q o = true →
    ∃ i o2, i < j ∧ tr.get? i = some o2 ∧ p o2 = true

theorem precedes_cons_head (p q : Op → Bool) (a : Op) (tr : List Op)
    (hp : p a = true) (hq : q a = false) : precedes p q (a :: tr) := by
  intro j o hget hqo
  match j with
  | 0 =>
      simp [List.get?] at hget
      subst hget
      rw [hqo] at hq
      exact absurd hq (by simp)
  | Nat.succ j' =>
      exact ⟨0, a, Nat.succ_pos j', by simp [List.get?], hp⟩

/- ===================== coflows_utils.py ===================== -/

def PUSH_ARGS_TRANSFER_PATH : String := "push_tasks"

/-- FlowFuture: holds the colink storage key derived from the invocation id
(`__init__` computes the f-string push_tasks:{msg_id}:response). -/
structure FlowFuture : Type where
  colink_storage_key : String

/-- Embeds `FlowFuture.__init__(cl, msg_id)` (the substrate handle `cl` has no
observable content in this model). -/
def FlowFuture.init (msgId : String) : FlowFuture :=
  ⟨PUSH_ARGS_TRANSFER_PATH ++ ":" ++ msgId ++ ":response"⟩

/-- Serialized message bytes; the spec requires serialization to round-trip
exactly, so bytes are modelled by the message they encode. -/
structure SerializedMsg : Type where
  payload : Msg

/-- Modelled from the spec: `OutputMessage.serialize` is not under src/; the
spec only requires that serialization round-trips exactly. -/
def OutputMessage.serialize (m : Msg) : SerializedMsg := ⟨m⟩

/-- Modelled from the spec: `OutputMessage.deserialize` is not under src/.
The spec requires exact round-trip, and for `poll` it requires that reading an
absent entry "returns none if absent (no error)", which forces deserialization
of an absent value to yield none rather than fail. -/
def OutputMessage.deserialize (b : Option SerializedMsg) : Option Msg :=
  match b with
  | none => none
  | some b => some b.payload

/-- Embeds `FlowFuture.try_get`: one non-blocking `read_entry` on the storage
key, result passed to `OutputMessage.deserialize`. The substrate key-value
store is passed explicitly as a function from keys to optional stored bytes. -/
def FlowFuture.try_get (store : String → Option SerializedMsg) (f : FlowFuture) :
    Option Msg :=
  OutputMessage.deserialize (store f.colink_storage_key)

/-- External inputs of one `push_to_flow` call: the caller identity
(`cl.get_user_id()`) and the freshly generated uuid4 invocation id. -/
structure PushEnv : Type where
  userId : String
  freshId : String

/-- Dynamically-typed return value of `push_to_flow`. -/
inductive PushRet : Type where
  | msgId (id : String)
  | future (f : FlowFuture)

def PushRet.isFuture : PushRet → Bool
  | .future _ => true
  | _ => false

structure PushResult : Type where
  ops : List Op
  participants : List Participant
  ret : PushRet

/-- Embeds `push_to_flow(cl, target_user_id, target_flow_ref, message)`:
computes the participant roles, stores the serialized message under
push_tasks:{id}:msg with `create_entry`, spawns the durable
coflows_push task with `run_task`, and returns `push_msg_id`. -/
def pushToFlow (env : PushEnv) (targetUserId targetFlowRef : String) (message : Msg) :
    PushResult :=
  let participants : List Participant :=
    if targetUserId = "local" ∨ targetUserId = env.userId then
      [⟨env.userId, "receiver"⟩]
    else
      [⟨env.userId, "initiator"⟩, ⟨targetUserId, "receiver"⟩]
  let pushMsgId := env.freshId
  let msgKey := PUSH_ARGS_TRANSFER_PATH ++ ":" ++ pushMsgId ++ ":msg"
  { ops := [Op.createEntry msgKey message,
            Op.runTask "coflows_push" targetFlowRef pushMsgId participants true],
    participants := participants,
    ret := PushRet.msgId pushMsgId }

/-- The key under which the outbound message of an invocation is stored. -/
def pushMsgKey (id : String) : String :=
  PUSH_ARGS_TRANSFER_PATH ++ ":" ++ id ++ ":msg"

/- ===================== colink_protocol_utils.py ===================== -/

/-- Python nested-dictionary item assignment `d[k1][k2] = v`: evaluating
`d[k1]` raises KeyError when the key is absent, and item assignment on a
non-dictionary raises TypeError; otherwise the inner dictionary is updated. -/
def setNestedKV (d : List (String × Value)) (k1 k2 : String) (v : Value) :
    Except String (List (String × Value)) :=
  match lookupKV d k1 with
  | none => Except.error ("KeyError: " ++ k1)
  | some (Value.vmap m) => Except.ok (setKV d k1 (Value.vmap (setKV m k2 v)))
  | some _ => Except.error "TypeError"

/-- External inputs of one `run_simpleinvoke_targetflow` run: the colink task
id, the unpickled task parameter (the target flow queue name), the input
message received from the initiator, the completion message delivered on the
response subscription (queue-relay submode), and, when supplied at protocol
construction time, the ephemeral flow factory — modelled by the joint
behaviour of `ephemeral_flow_create()` followed by one call: the output
message of `flow(input_msg)` and the `flow.__getstate__` snapshot. -/
structure TFEnv : Type where
  taskId : String
  targetFlowQueue : String
  inputMsg : Msg
  queueResponse : Msg
  ephemeralFlow : Option (Msg → Msg × Value)

/-- The uniquely-named response queue of one target-flow run
(f-string simple-invoke-serve:{target_flow_queue}:{task_id}). -/
def responseQueueName (env : TFEnv) : String :=
  "simple-invoke-serve:" ++ env.targetFlowQueue ++ ":" ++ env.taskId

/-- Embeds `run_simpleinvoke_targetflow`.  Queue-relay submode (no ephemeral
factory): subscribe to the response queue, receive the input, tag its
colink_meta_data with the response queue name, write it into the target
unit work queue with `update_entry`, block on the subscription, send the
output back.  Ephemeral submode: receive the input, run the fresh unit,
initialize colink_meta_data only when the data lacks the key "meta_data"
(the guard as written in the source), attach the state snapshot under
colink_meta_data.state, send the output back.  Returns the substrate trace
and either the sent output message or the uncaught exception. -/
def runSimpleinvokeTargetflow (env : TFEnv) : List Op × Except String Msg :=
  match env.ephemeralFlow with
  | none =>
    let rqName := responseQueueName env
    let t1 : List Op := [Op.subscribe rqName, Op.recvVariable "input_msg"]
    match setNestedKV env.inputMsg.data "colink_meta_data" "response_queue_name"
        (Value.vstr rqName) with
    | Except.error e => (t1, Except.error e)
    | Except.ok d2 =>
        let outMsg := env.queueResponse
        (t1 ++ [Op.updateEntry env.targetFlowQueue ⟨d2⟩, Op.queueRead,
                Op.sendVariable "output_msg" outMsg],
         Except.ok outMsg)
  | some flowFn =>
    let t1 : List Op := [Op.recvVariable "input_msg"]
    let (outMsg, snapshot) := flowFn env.inputMsg
    let d0 := if hasKV outMsg.data "meta_data" then outMsg.data
              else setKV outMsg.data "colink_meta_data" (Value.vmap [])
    match setNestedKV d0 "colink_meta_data" "state" snapshot with
    | Except.error e => (t1, Except.error e)
    | Except.ok d2 =>
        (t1 ++ [Op.sendVariable "output_msg" ⟨d2⟩], Except.ok ⟨d2⟩)

/- ===================== flow_API_launcher.py ===================== -/

/-- One accumulated inference output: fault-tolerant mode appends
`output_message.data`, non-fault-tolerant mode appends `output_message`. -/
inductive InfEntry : Type where
  | fromData : List (String × Value) → InfEntry
  | fromMsg : Msg → InfEntry

/-- Values stored in a batch sample dictionary. -/
inductive SVal : Type where
  | base : Value → SVal
  | infOuts : List InfEntry → SVal
  | hrOuts : List Value → SVal
  | err : Option String → SVal

/-- A batch sample (Python dictionary). -/
def Sample : Type := List (String × SVal)

/-- Launcher configuration (constructor arguments of
FlowMultiThreadedAPILauncher that `predict` reads). -/
structure Config : Type where
  nIndependentSamples : Nat
  faultTolerantMode : Bool
  nBatchRetries : Nat

/-- External behaviour of the resource slot of one `predict` call: the input
interface (absent or a possibly-raising function of the sample), the flow
invocations `flow(input_message)` as a function of the running call count,
the output interface (absent or a possibly-raising function of the output
data), and the `flow.reset` calls as a function of the running reset count. -/
structure LEnv : Type where
  inIface : Option (Sample → Except String Sample)
  flowCall : Nat → Except String Msg
  outIface : Option (Value → Except String Value)
  resetBeh : Nat → Except String Unit

/-- Operations on the shared pool of resource slot ids. -/
inductive PoolOp : Type where
  | acquire : Nat → PoolOp
  | release : Nat → PoolOp

/-- One guarded attempt: `flow(input_message)`, the lookup
`output_message.data["output_data"]`, and the output interface, any of which
may raise.  Returns the incremented flow call count and either the output
message with its (possibly interface-transformed) output data, or the
exception. -/
def tryAttempt (env : LEnv) (cc : Nat) : Nat × Except String (Msg × Value) :=
  match env.flowCall cc with
  | Except.error e => (cc + 1, Except.error e)
  | Except.ok m =>
    match lookupKV m.data "output_data" with
    | none => (cc + 1, Except.error "KeyError: output_data")
    | some od =>
      match env.outIface with
      | none => (cc + 1, Except.ok (m, od))
      | some f =>
        match f od with
        | Except.error e => (cc + 1, Except.error e)
        | Except.ok od2 => (cc + 1, Except.ok (m, od2))

/-- The fault-tolerant retry loop (`while _attempt_idx <= self.n_batch_retries`
with the try/except body): runs attempts until one succeeds or the budget is
exhausted, recording the last failure message.  Returns the new call count,
the final `_error`, and the successful result if any. -/
def attemptLoop (env : LEnv) : Nat → Nat → Option String →
    Nat × Option String × Option (Msg × Value)
  | 0, cc, lastErr => (cc, lastErr, none)
  | n + 1, cc, lastErr =>
    match tryAttempt env cc with
    | (cc', Except.ok r) => (cc', none, some r)
    | (cc', Except.error e) => attemptLoop env n cc' (some e)

/-- The repetition loop (`for _sample_idx in range(self.n_independent_samples)`).
`hasId` records whether the sample has an "id" key: each iteration evaluates
`sample["id"]` for logging before anything else, raising KeyError when absent.
Fault-tolerant mode runs the retry loop and breaks on a terminal failure;
non-fault-tolerant mode runs one unguarded attempt.  After a non-failed
repetition the flow is reset (unguarded).  Returns the final call count,
reset count, accumulated outputs and the final `_error`, or the propagated
exception. -/
def repLoop (env : LEnv) (cfg : Config) (hasId : Bool) :
    Nat → Nat → Nat → List InfEntry → List Value →
    Except String (Nat × Nat × List InfEntry × List Value × Option String)
  | 0, cc, rc, infs, hrs => Except.ok (cc, rc, infs, hrs, none)
  | reps + 1, cc, rc, infs, hrs =>
    if hasId then
      if cfg.faultTolerantMode then
        match attemptLoop env cfg.nBatchRetries cc none with
        | (cc', some e, _) => Except.ok (cc', rc, infs, hrs, some e)
        | (cc', none, some (m, od)) =>
          match env.resetBeh rc with
          | Except.error e => Except.error e
          | Except.ok _ =>
              repLoop env cfg hasId reps cc' (rc + 1)
                (infs ++ [InfEntry.fromData m.data]) (hrs ++ [od])
        | (cc', none, none) =>
          match env.resetBeh rc with
          | Except.error e => Except.error e
          | Except.ok _ => repLoop env cfg hasId reps cc' (rc + 1) infs hrs
      else
        match tryAttempt env cc with
        | (_, Except.error e) => Except.error e
        | (cc', Except.ok (m, od)) =>
          match env.resetBeh rc with
          | Except.error e => Except.error e
          | Except.ok _ =>
              repLoop env cfg hasId reps cc' (rc + 1)
                (infs ++ [InfEntry.fromMsg m]) (hrs ++ [od])
    else Except.error "KeyError: id"

/-- The body of `for sample in batch` for one sample: apply the input
interface (unguarded — outside the try/except), run the repetitions, then set
the three result keys on the sample. -/
def processSample (env : LEnv) (cfg : Config) (s : Sample) : Except String Sample :=
  let inpRes : Except String Sample :=
    match env.inIface with
    | none => Except.ok s
    | some f => f s
  match inpRes with
  | Except.error e => Except.error e
  | Except.ok _ =>
    match repLoop env cfg (hasKV s "id") cfg.nIndependentSamples 0 0 [] [] with
    | Except.error e => Except.error e
    | Except.ok (_, _, infs, hrs, er) =>
        Except.ok (setKV (setKV (setKV s
          "inference_outputs" (SVal.infOuts infs))
          "human_readable_outputs" (SVal.hrOuts hrs))
          "error" (SVal.err er))

/-- The `for sample in batch` loop over the whole batch list. -/
def processList (env : LEnv) (cfg : Config) : List Sample → Except String (List Sample)
  | [] => Except.ok []
  | s :: rest =>
    match processSample env cfg s with
    | Except.error e => Except.error e
    | Except.ok s2 =>
      match processList env cfg rest with
      | Except.error e => Except.error e
      | Except.ok rest2 => Except.ok (s2 :: rest2)

/-- Modelled from the spec: `write_batch_output` (inherited from
MultiThreadedAPILauncher, not under src/) writes one record per sample with
exactly the keys passed in `keys_to_write`; per the spec the record shape is
id, inference_outputs, human_readable_outputs, error. -/
def mkRecord (s : Sample) : List (String × Option SVal) :=
  [("id", lookupKV s "id"),
   ("inference_outputs", lookupKV s "inference_outputs"),
   ("human_readable_outputs", lookupKV s "human_readable_outputs"),
   ("error", lookupKV s "error")]

/-- Embeds `FlowMultiThreadedAPILauncher.predict(batch)`.  The batch-size
assertion runs before the slot acquisition; `slot` is the id handed out by
the blocking pool `self._resource_IDs.get()`.  On an uncaught exception the
already-issued pool operations are kept in the trace and the exception
propagates: no record is written and the slot is not released.  On normal
completion the records are written and the same slot id is released. -/
def predict (env : LEnv) (cfg : Config) (slot : Nat) (batch : List Sample) :
    List PoolOp × Except String (List Sample × List (List (String × Option SVal))) :=
  if batch.length ≠ 1 then
    ([], Except.error "AssertionError: batch size")
  else
    match processList env cfg batch with
    | Except.error e => ([PoolOp.acquire slot], Except.error e)
    | Except.ok batch2 =>
        ([PoolOp.acquire slot, PoolOp.release slot],
         Except.ok (batch2, batch2.map mkRecord))

/- ===================== Claims C1, C2, C7, C8 (push dispatcher) ===================== -/

theorem pushToFlow_participants (env : PushEnv) (t ref : String) (m : Msg) :
    (pushToFlow env t ref m).participants =
      (if t = "local" ∨ t = env.userId then
        [⟨env.userId, "receiver"⟩]
      else
        [⟨env.userId, "initiator"⟩, ⟨t, "receiver"⟩] : List Participant) := rfl

/-- Claim C1 counterexample: at a concrete call, `push_to_flow` returns the
raw generated invocation id (`push_msg_id`), not a FlowFuture. -/
theorem c1_counterexample :
    (pushToFlow ⟨"u1", "id0"⟩ "u2" "flowA" ⟨[]⟩).ret = PushRet.msgId "id0" ∧
    (pushToFlow ⟨"u1", "id0"⟩ "u2" "flowA" ⟨[]⟩).ret.isFuture = false :=
  ⟨rfl, rfl⟩

/-- Claim C1 (amended): every call to `push_to_flow` returns the freshly
generated invocation id itself; a FlowFuture constructed from that id (as
`FlowFuture.__init__` does) is addressed by the storage key
push_tasks:{id}:response. -/
theorem c1_push_returns_invocation_id (env : PushEnv) (t ref : String) (m : Msg) :
    (pushToFlow env t ref m).ret = PushRet.msgId env.freshId ∧
    (FlowFuture.init env.freshId).colink_storage_key =
      "push_tasks:" ++ env.freshId ++ ":response" := by
  refine ⟨rfl, ?_⟩
  show "push_tasks" ++ ":" ++ env.freshId ++ ":response" =
    "push_tasks:" ++ env.freshId ++ ":response"
  rw [show ("push_tasks" ++ ":" : String) = "push_tasks:" from rfl]

/-- Claim C2: in every call to `push_to_flow`, the `create_entry` that stores
the outbound message under push_tasks:{id}:msg occurs, the `run_task` spawn
occurs, and the former strictly precedes the latter in the issued substrate
operation sequence. -/
theorem c2_store_before_spawn (env : PushEnv) (t ref : String) (m : Msg) :
    (pushToFlow env t ref m).ops.any (Op.isCreateEntryOn (pushMsgKey env.freshId)) = true ∧
    (pushToFlow env t ref m).ops.any Op.isRunTask = true ∧
    precedes (Op.isCreateEntryOn (pushMsgKey env.freshId)) Op.isRunTask
      (pushToFlow env t ref m).ops := by
  refine ⟨?_, ?_, ?_⟩
  · simp [pushToFlow, Op.isCreateEntryOn, pushMsgKey]
  · simp [pushToFlow, Op.isRunTask]
  · show precedes _ _ [Op.createEntry (pushMsgKey env.freshId) m,
      Op.runTask "coflows_push" ref env.freshId _ true]
    exact precedes_cons_head _ _ _ _ (by simp [Op.isCreateEntryOn]) rfl

/-- Claim C7: the participant role assignment of `push_to_flow` — a target
equal to the sentinel "local" or to the caller identity yields the single
pair (caller, receiver); any other target yields the ordered pair list
[(caller, initiator), (target, receiver)]. -/
theorem c7_participant_roles :
    (∀ (env : PushEnv) (t ref : String) (m : Msg), t = "local" ∨ t = env.userId →
        (pushToFlow env t ref m).participants = [⟨env.userId, "receiver"⟩]) ∧
    (∀ (env : PushEnv) (t ref : String) (m : Msg), t ≠ "local" → t ≠ env.userId →
        (pushToFlow env t ref m).participants =
          [⟨env.userId, "initiator"⟩, ⟨t, "receiver"⟩]) := by
  constructor
  · intro env t ref m h
    rw [pushToFlow_participants, if_pos h]
  · intro env t ref m h1 h2
    rw [pushToFlow_participants, if_neg (by simp [h1, h2])]

/-- Claim C7 witness: the two concrete role assignments of spec property P4. -/
theorem c7_witness :
    (pushToFlow ⟨"u1", "i0"⟩ "u1" "flowA" ⟨[]⟩).participants = [⟨"u1", "receiver"⟩] ∧
    (pushToFlow ⟨"u1", "i1"⟩ "u2" "flowA" ⟨[]⟩).participants =
      [⟨"u1", "initiator"⟩, ⟨"u2", "receiver"⟩] :=
  ⟨c7_participant_roles.1 ⟨"u1", "i0"⟩ "u1" "flowA" ⟨[]⟩ (Or.inr rfl),
   c7_participant_roles.2 ⟨"u1", "i1"⟩ "u2" "flowA" ⟨[]⟩ (by decide) (by decide)⟩

/-- Claim C8: `FlowFuture.try_get` is total and non-blocking — with the
addressed response entry absent from the store it returns none, and with the
entry present it returns the deserialized response message. -/
theorem c8_try_get_total :
    (∀ (store : String → Option SerializedMsg) (f : FlowFuture),
        store f.colink_storage_key = none → f.try_get store = none) ∧
    (∀ (store : String → Option SerializedMsg) (f : FlowFuture) (m : Msg),
        store f.colink_storage_key = some (OutputMessage.serialize m) →
        f.try_get store = some m) := by
  constructor
  · intro store f h
    simp [FlowFuture.try_get, OutputMessage.deserialize, h]
  · intro store f m h
    simp [FlowFuture.try_get, OutputMessage.deserialize, OutputMessage.serialize, h]

/-- Claim C8 witness: try_get on an empty store and on a store holding one
serialized response. -/
theorem c8_witness :
    (FlowFuture.init "w0").try_get (fun _ => none) = none ∧
    (FlowFuture.init "w1").try_get
      (fun _ => some (OutputMessage.serialize ⟨[]⟩)) = some ⟨[]⟩ :=
  ⟨c8_try_get_total.1 (fun _ => none) (FlowFuture.init "w0") rfl,
   c8_try_get_total.2 (fun _ => some (OutputMessage.serialize ⟨[]⟩))
     (FlowFuture.init "w1") ⟨[]⟩ rfl⟩

/- ===================== Claims C3, C9 (invocation protocol target role) ===================== -/

/-- Claim C3: in queue-relay submode (no ephemeral factory), every run of the
target-flow role issues the subscription to its uniquely-named response queue
as its first substrate operation, and every `update_entry` forwarding work
into the target unit queue is strictly preceded by that subscription. -/
theorem c3_subscribe_before_forward (env : TFEnv) (h : env.ephemeralFlow = none) :
    (runSimpleinvokeTargetflow env).1.get? 0 =
      some (Op.subscribe (responseQueueName env)) ∧
    precedes (Op.isSubscribeOn (responseQueueName env))
      (Op.isUpdateEntryOn env.targetFlowQueue) (runSimpleinvokeTargetflow env).1 := by
  unfold runSimpleinvokeTargetflow
  rw [h]
  cases hset : setNestedKV env.inputMsg.data "colink_meta_data" "response_queue_name"
      (Value.vstr (responseQueueName env)) with
  | error e =>
      simp only [hset]
      exact ⟨rfl, precedes_cons_head _ _ _ _ (by simp [Op.isSubscribeOn]) rfl⟩
  | ok d2 =>
      simp only [hset, List.cons_append, List.nil_append]
      exact ⟨rfl, precedes_cons_head _ _ _ _ (by simp [Op.isSubscribeOn]) rfl⟩

/-- Claim C3 witness: a concrete queue-relay run. -/
theorem c3_witness :
    (runSimpleinvokeTargetflow ⟨"t0", "q0", ⟨[]⟩, ⟨[]⟩, none⟩).1.get? 0 =
      some (Op.subscribe (responseQueueName ⟨"t0", "q0", ⟨[]⟩, ⟨[]⟩, none⟩)) ∧
    precedes (Op.isSubscribeOn (responseQueueName ⟨"t0", "q0", ⟨[]⟩, ⟨[]⟩, none⟩))
      (Op.isUpdateEntryOn "q0")
      (runSimpleinvokeTargetflow ⟨"t0", "q0", ⟨[]⟩, ⟨[]⟩, none⟩).1 :=
  c3_subscribe_before_forward ⟨"t0", "q0", ⟨[]⟩, ⟨[]⟩, none⟩ rfl

/-- Claim C9: evaluation at the failing input.  In ephemeral submode, a fresh
unit whose output message data contains the key "meta_data" but not
"colink_meta_data" makes the handler raise KeyError on the assignment
output_msg.data["colink_meta_data"]["state"] (the guard checks "meta_data"
but the assignment targets "colink_meta_data"), so the state snapshot is
never attached and the output is never sent back to the initiator. -/
theorem c9_state_attach_keyerror :
    runSimpleinvokeTargetflow
      ⟨"t1", "q1", ⟨[]⟩, ⟨[]⟩,
       some (fun _ => (⟨[("meta_data", Value.vmap [])]⟩, Value.vstr "snap"))⟩ =
      ([Op.recvVariable "input_msg"], Except.error "KeyError: colink_meta_data") ∧
    ((runSimpleinvokeTargetflow
      ⟨"t1", "q1", ⟨[]⟩, ⟨[]⟩,
       some (fun _ => (⟨[("meta_data", Value.vmap [])]⟩, Value.vstr "snap"))⟩).1.any
        Op.isSendVariable) = false :=
  ⟨rfl, rfl⟩

/- ===================== Launcher helper definitions and lemmas ===================== -/

/-- The input interface, when present, returns normally on every sample. -/
def inIfaceTotal (env : LEnv) : Prop :=
  ∀ f s, env.inIface = some f → ∃ s2, f s = Except.ok s2

/-- Every `flow.reset` call returns normally. -/
def resetOk (env : LEnv) : Prop :=
  ∀ n, env.resetBeh n = Except.ok ()

/-- The final shape of a processed sample: the input sample with exactly the
three result keys set. -/
def sampleResult (s : Sample) (infs : List InfEntry) (hrs : List Value)
    (er : Option String) : Sample :=
  setKV (setKV (setKV s "inference_outputs" (SVal.infOuts infs))
    "human_readable_outputs" (SVal.hrOuts hrs)) "error" (SVal.err er)

theorem sampleResult_error (s : Sample) (infs : List InfEntry) (hrs : List Value)
    (er : Option String) :
    lookupKV (sampleResult s infs hrs er) "error" = some (SVal.err er) :=
  lookupKV_setKV_same _ _ _

theorem sampleResult_hr (s : Sample) (infs : List InfEntry) (hrs : List Value)
    (er : Option String) :
    lookupKV (sampleResult s infs hrs er) "human_readable_outputs" =
      some (SVal.hrOuts hrs) := by
  unfold sampleResult
  rw [lookupKV_setKV_other _ _ _ _ (by decide), lookupKV_setKV_same]

theorem sampleResult_inf (s : Sample) (infs : List InfEntry) (hrs : List Value)
    (er : Option String) :
    lookupKV (sampleResult s infs hrs er) "inference_outputs" =
      some (SVal.infOuts infs) := by
  unfold sampleResult
  rw [lookupKV_setKV_other _ _ _ _ (by decide),
    lookupKV_setKV_other _ _ _ _ (by decide), lookupKV_setKV_same]

theorem sampleResult_frame (s : Sample) (infs : List InfEntry) (hrs : List Value)
    (er : Option String) (k : String) (h1 : k ≠ "inference_outputs")
    (h2 : k ≠ "human_readable_outputs") (h3 : k ≠ "error") :
    lookupKV (sampleResult s infs hrs er) k = lookupKV s k := by
  unfold sampleResult
  rw [lookupKV_setKV_other _ _ _ _ h3, lookupKV_setKV_other _ _ _ _ h2,
    lookupKV_setKV_other _ _ _ _ h1]

/-- In fault-tolerant mode with well-behaved reset calls, the repetition loop
never propagates an exception (all attempt failures are caught). -/
theorem repLoop_ft_ok (env : LEnv) (cfg : Config)
    (hft : cfg.faultTolerantMode = true) (hr : resetOk env) :
    ∀ reps cc rc infs hrs, ∃ out,
      repLoop env cfg true reps cc rc infs hrs = Except.ok out := by
  intro reps
  induction reps with
  | zero => intro cc rc infs hrs; exact ⟨_, rfl⟩
  | succ n ih =>
      intro cc rc infs hrs
      rcases hA : attemptLoop env cfg.nBatchRetries cc none with ⟨cc', err, res⟩
      cases err with
      | some e =>
          exact ⟨(cc', rc, infs, hrs, some e), by simp [repLoop, hft, hA]⟩
      | none =>
          cases res with
          | none =>
              obtain ⟨out, hout⟩ := ih cc' (rc + 1) infs hrs
              exact ⟨out, by simp [repLoop, hft, hA, hr rc, hout]⟩
          | some r =>
              obtain ⟨m, od⟩ := r
              obtain ⟨out, hout⟩ :=
                ih cc' (rc + 1) (infs ++ [InfEntry.fromData m.data]) (hrs ++ [od])
              exact ⟨out, by simp [repLoop, hft, hA, hr rc, hout]⟩

/-- In fault-tolerant mode with a total input interface, well-behaved resets
and an "id" key on the sample, `processSample` returns normally with the
sample extended by the three result keys. -/
theorem processSample_ft_ok (env : LEnv) (cfg : Config) (s : Sample)
    (hft : cfg.faultTolerantMode = true) (hin : inIfaceTotal env)
    (hr : resetOk env) (hid : hasKV s "id" = true) :
    ∃ infs hrs er, processSample env cfg s =
      Except.ok (sampleResult s infs hrs er) := by
  obtain ⟨out, hout⟩ := repLoop_ft_ok env cfg hft hr cfg.nIndependentSamples 0 0 [] []
  obtain ⟨cc2, rc2, infs, hrs, er⟩ := out
  refine ⟨infs, hrs, er, ?_⟩
  cases hI : env.inIface with
  | none => simp [processSample, hI, hid, hout, sampleResult]
  | some f =>
      obtain ⟨s2, hs2⟩ := hin f s hI
      simp [processSample, hI, hs2, hid, hout, sampleResult]

/-- In fault-tolerant mode with a total input interface, well-behaved resets
and an "id" key, `predict` on a one-sample batch returns normally: the slot
is acquired and released, and the batch record is written. -/
theorem predict_ft_ok (env : LEnv) (cfg : Config) (slot : Nat) (s : Sample)
    (hft : cfg.faultTolerantMode = true) (hin : inIfaceTotal env)
    (hr : resetOk env) (hid : hasKV s "id" = true) :
    ∃ infs hrs er, predict env cfg slot [s] =
      ([PoolOp.acquire slot, PoolOp.release slot],
       Except.ok ([sampleResult s infs hrs er],
                  [mkRecord (sampleResult s infs hrs er)])) := by
  obtain ⟨infs, hrs, er, hps⟩ := processSample_ft_ok env cfg s hft hin hr hid
  exact ⟨infs, hrs, er, by simp [predict, processList, hps]⟩

theorem tryAttempt_fst (env : LEnv) (cc : Nat) : (tryAttempt env cc).1 = cc + 1 := by
  unfold tryAttempt
  repeat' split
  all_goals rfl

/-- One retry-loop step on a failing attempt. -/
theorem attemptLoop_step_fail (env : LEnv) (n cc : Nat) (last : Option String)
    (e : String) (h : env.flowCall cc = Except.error e) :
    attemptLoop env (n + 1) cc last = attemptLoop env n (cc + 1) (some e) := by
  simp [attemptLoop, tryAttempt, h]

/-- One retry-loop step on a succeeding attempt. -/
theorem attemptLoop_step_ok (env : LEnv) (n cc : Nat) (last : Option String)
    (m : Msg) (od : Value)
    (hpair : tryAttempt env cc = (cc + 1, Except.ok (m, od))) :
    attemptLoop env (n + 1) cc last = (cc + 1, none, some (m, od)) := by
  simp [attemptLoop, hpair]

/-- With every guarded attempt succeeding and a positive retry budget, the
repetition loop completes all repetitions with a null final error. -/
theorem repLoop_all_ok (env : LEnv) (cfg : Config)
    (hft : cfg.faultTolerantMode = true) (hr : resetOk env)
    (hatt : ∀ cc, ∃ r, (tryAttempt env cc).2 = Except.ok r) (m : Nat)
    (hnb : cfg.nBatchRetries = m + 1) :
    ∀ reps cc rc infs hrs, ∃ cc' rc' infs' hrs',
      repLoop env cfg true reps cc rc infs hrs =
        Except.ok (cc', rc', infs', hrs', none) := by
  intro reps
  induction reps with
  | zero => intro cc rc infs hrs; exact ⟨cc, rc, infs, hrs, rfl⟩
  | succ n ih =>
      intro cc rc infs hrs
      obtain ⟨r, hrr⟩ := hatt cc
      obtain ⟨mm, od⟩ := r
      have hpair : tryAttempt env cc = (cc + 1, Except.ok (mm, od)) :=
        Prod.ext (tryAttempt_fst env cc) hrr
      have hA : attemptLoop env cfg.nBatchRetries cc none =
          (cc + 1, none, some (mm, od)) := by
        rw [hnb]
        exact attemptLoop_step_ok env m cc none mm od hpair
      obtain ⟨cc', rc', infs', hrs', hout⟩ :=
        ih (cc + 1) (rc + 1) (infs ++ [InfEntry.fromData mm.data]) (hrs ++ [od])
      exact ⟨cc', rc', infs', hrs', by simp [repLoop, hft, hA, hr rc, hout]⟩

/-- With every flow invocation failing, the retry loop exhausts its budget and
reports the message of the last attempt. -/
theorem attemptLoop_all_fail (env : LEnv) (msgs : Nat → String)
    (hfail : ∀ cc, env.flowCall cc = Except.error (msgs cc)) :
    ∀ n cc last, attemptLoop env (n + 1) cc last =
      (cc + n + 1, some (msgs (cc + n)), none) := by
  intro n
  induction n with
  | zero =>
      intro cc last
      rw [attemptLoop_step_fail env 0 cc last (msgs cc) (hfail cc)]
      simp [attemptLoop]
  | succ n ih =>
      intro cc last
      rw [attemptLoop_step_fail env (n + 1) cc last (msgs cc) (hfail cc), ih]
      have h1 : cc + 1 + n = cc + (n + 1) := by omega
      rw [h1]

/-- With every flow invocation failing and a positive retry budget, the first
repetition terminally fails: the loop breaks immediately, accumulating nothing
and recording the last attempt message. -/
theorem repLoop_first_fail (env : LEnv) (cfg : Config) (msgs : Nat → String)
    (hft : cfg.faultTolerantMode = true)
    (hfail : ∀ cc, env.flowCall cc = Except.error (msgs cc)) (m : Nat)
    (hnb : cfg.nBatchRetries = m + 1) (reps cc rc : Nat) (infs : List InfEntry)
    (hrs : List Value) :
    repLoop env cfg true (reps + 1) cc rc infs hrs =
      Except.ok (cc + m + 1, rc, infs, hrs, some (msgs (cc + m))) := by
  have hA : attemptLoop env cfg.nBatchRetries cc none =
      (cc + m + 1, some (msgs (cc + m)), none) := by
    rw [hnb]
    exact attemptLoop_all_fail env msgs hfail m cc none
  simp [repLoop, hft, hA]

/-- Any normally-returning `processSample` yields the input sample with
exactly the three result keys set. -/
theorem processSample_ok_shape (env : LEnv) (cfg : Config) (s s2 : Sample)
    (h : processSample env cfg s = Except.ok s2) :
    ∃ infs hrs er, s2 = sampleResult s infs hrs er := by
  cases hI : env.inIface with
  | none =>
      simp only [processSample, hI] at h
      cases hrl : repLoop env cfg (hasKV s "id") cfg.nIndependentSamples 0 0 [] [] with
      | error e => rw [hrl] at h; simp at h
      | ok out =>
          obtain ⟨cc, rc, infs, hrs, er⟩ := out
          rw [hrl] at h
          simp only [Except.ok.injEq] at h
          exact ⟨infs, hrs, er, h.symm⟩
  | some f =>
      simp only [processSample, hI] at h
      cases hf : f s with
      | error e => rw [hf] at h; simp at h
      | ok s3 =>
          rw [hf] at h
          cases hrl : repLoop env cfg (hasKV s "id") cfg.nIndependentSamples 0 0 [] [] with
          | error e => rw [hrl] at h; simp at h
          | ok out =>
              obtain ⟨cc, rc, infs, hrs, er⟩ := out
              rw [hrl] at h
              simp only [Except.ok.injEq] at h
              exact ⟨infs, hrs, er, h.symm⟩

/- ===================== Claims C4, C5, C6, C10 (batch launcher) ===================== -/

/-- Claim C4 counterexample: with fault_tolerant_mode=true, a 1-element batch
and an input interface that raises, `predict` propagates the exception past
the launcher — the slot is acquired but never released and no sample record
is written. -/
theorem c4_counterexample :
    predict ⟨some (fun _ => Except.error "boom"),
             fun _ => Except.ok ⟨[]⟩, none, fun _ => Except.ok ()⟩
      ⟨1, true, 3⟩ 0 [[("id", SVal.base Value.vnull)]] =
      ([PoolOp.acquire 0], Except.error "boom") := rfl

/-- Claim C4 (amended): with fault_tolerant_mode=true, for every 1-element
batch whose sample has an "id" key, and every behaviour of the flow
invocations and the output interface, provided the calls made outside the
guarded retry region (the input interface and the flow resets) return
normally, `predict` never raises: it returns the batch and writes the sample
record with its error field set — null when every guarded attempt succeeds,
and set to the last failure message when every attempt fails. -/
theorem c4_fault_tolerant_no_raise :
    (∀ (env : LEnv) (cfg : Config) (slot : Nat) (s : Sample),
      cfg.faultTolerantMode = true → inIfaceTotal env → resetOk env →
      hasKV s "id" = true →
      ∃ infs hrs er, predict env cfg slot [s] =
        ([PoolOp.acquire slot, PoolOp.release slot],
         Except.ok ([sampleResult s infs hrs er],
                    [mkRecord (sampleResult s infs hrs er)])) ∧
        lookupKV (sampleResult s infs hrs er) "error" = some (SVal.err er)) ∧
    (∀ (env : LEnv) (cfg : Config) (slot : Nat) (s : Sample) (m : Nat),
      cfg.faultTolerantMode = true → inIfaceTotal env → resetOk env →
      hasKV s "id" = true → cfg.nBatchRetries = m + 1 →
      (∀ cc, ∃ r, (tryAttempt env cc).2 = Except.ok r) →
      ∃ infs hrs, predict env cfg slot [s] =
        ([PoolOp.acquire slot, PoolOp.release slot],
         Except.ok ([sampleResult s infs hrs none],
                    [mkRecord (sampleResult s infs hrs none)]))) ∧
    (∀ (env : LEnv) (cfg : Config) (slot : Nat) (s : Sample)
        (msgs : Nat → String) (m r : Nat),
      cfg.faultTolerantMode = true → inIfaceTotal env →
      hasKV s "id" = true → cfg.nBatchRetries = m + 1 →
      cfg.nIndependentSamples = r + 1 →
      (∀ cc, env.flowCall cc = Except.error (msgs cc)) →
      predict env cfg slot [s] =
        ([PoolOp.acquire slot, PoolOp.release slot],
         Except.ok ([sampleResult s [] [] (some (msgs m))],
                    [mkRecord (sampleResult s [] [] (some (msgs m)))]))) := by
  refine ⟨?_, ?_, ?_⟩
  · intro env cfg slot s hft hin hr hid
    obtain ⟨infs, hrs, er, h⟩ := predict_ft_ok env cfg slot s hft hin hr hid
    exact ⟨infs, hrs, er, h, sampleResult_error s infs hrs er⟩
  · intro env cfg slot s m hft hin hr hid hnb hatt
    obtain ⟨cc', rc', infs, hrs, hout⟩ :=
      repLoop_all_ok env cfg hft hr hatt m hnb cfg.nIndependentSamples 0 0 [] []
    refine ⟨infs, hrs, ?_⟩
    cases hI : env.inIface with
    | none => simp [predict, processList, processSample, hI, hid, hout, sampleResult]
    | some f =>
        obtain ⟨s2, hs2⟩ := hin f s hI
        simp [predict, processList, processSample, hI, hs2, hid, hout, sampleResult]
  · intro env cfg slot s msgs m r hft hin hid hnb hreps hfail
    have hout := repLoop_first_fail env cfg msgs hft hfail m hnb r 0 0 [] []
    simp only [Nat.zero_add] at hout
    cases hI : env.inIface with
    | none =>
        simp [predict, processList, processSample, hI, hid, hreps, hout, sampleResult]
    | some f =>
        obtain ⟨s2, hs2⟩ := hin f s hI
        simp [predict, processList, processSample, hI, hs2, hid, hreps, hout,
          sampleResult]

/-- Claim C4 witness: the three legs at concrete inputs — a benign slot, an
always-succeeding slot, and an always-failing slot. -/
theorem c4_witness :
    (∃ infs hrs er,
      predict ⟨none, fun _ => Except.ok ⟨[]⟩, none, fun _ => Except.ok ()⟩
          ⟨1, true, 1⟩ 0 [[("id", SVal.base Value.vnull)]] =
        ([PoolOp.acquire 0, PoolOp.release 0],
         Except.ok ([sampleResult [("id", SVal.base Value.vnull)] infs hrs er],
                    [mkRecord (sampleResult [("id", SVal.base Value.vnull)] infs hrs er)])) ∧
        lookupKV (sampleResult [("id", SVal.base Value.vnull)] infs hrs er) "error" =
          some (SVal.err er)) ∧
    (∃ infs hrs,
      predict ⟨none, fun _ => Except.ok ⟨[("output_data", Value.vnull)]⟩, none,
               fun _ => Except.ok ()⟩
          ⟨1, true, 1⟩ 1 [[("id", SVal.base Value.vnull)]] =
        ([PoolOp.acquire 1, PoolOp.release 1],
         Except.ok ([sampleResult [("id", SVal.base Value.vnull)] infs hrs none],
                    [mkRecord (sampleResult [("id", SVal.base Value.vnull)] infs hrs none)]))) ∧
    predict ⟨none, fun _ => Except.error "boom", none, fun _ => Except.ok ()⟩
        ⟨1, true, 1⟩ 2 [[("id", SVal.base Value.vnull)]] =
      ([PoolOp.acquire 2, PoolOp.release 2],
       Except.ok ([sampleResult [("id", SVal.base Value.vnull)] [] [] (some "boom")],
                  [mkRecord (sampleResult [("id", SVal.base Value.vnull)] [] [] (some "boom"))])) :=
  ⟨c4_fault_tolerant_no_raise.1
      ⟨none, fun _ => Except.ok ⟨[]⟩, none, fun _ => Except.ok ()⟩
      ⟨1, true, 1⟩ 0 [("id", SVal.base Value.vnull)] rfl
      (fun f s h => Option.noConfusion h) (fun n => rfl) rfl,
   c4_fault_tolerant_no_raise.2.1
      ⟨none, fun _ => Except.ok ⟨[("output_data", Value.vnull)]⟩, none,
       fun _ => Except.ok ()⟩
      ⟨1, true, 1⟩ 1 [("id", SVal.base Value.vnull)] 0 rfl
      (fun f s h => Option.noConfusion h) (fun n => rfl) rfl rfl
      (fun cc => ⟨(⟨[("output_data", Value.vnull)]⟩, Value.vnull), rfl⟩),
   c4_fault_tolerant_no_raise.2.2
      ⟨none, fun _ => Except.error "boom", none, fun _ => Except.ok ()⟩
      ⟨1, true, 1⟩ 2 [("id", SVal.base Value.vnull)] (fun _ => "boom") 0 0 rfl
      (fun f s h => Option.noConfusion h) rfl rfl rfl (fun cc => rfl)⟩

/-- Claim C5: retry-budget semantics with fault_tolerant_mode=true and
n_batch_retries=3.  Leg 1: attempts 1 and 2 fail and attempt 3 succeeds —
the record has error=null and exactly one accumulated output.  Leg 2: all 3
attempts fail — error is the last failure message and no output is
accumulated.  Leg 3: with two repetitions, a successful first repetition is
preserved when the second repetition exhausts its budget; only the terminal
error is recorded. -/
theorem c5_retry_budget :
    (∀ (env : LEnv) (slot : Nat) (s : Sample) (e1 e2 : String) (m : Msg) (od : Value),
      env.inIface = none → env.outIface = none → resetOk env →
      env.flowCall 0 = Except.error e1 → env.flowCall 1 = Except.error e2 →
      env.flowCall 2 = Except.ok m → lookupKV m.data "output_data" = some od →
      hasKV s "id" = true →
      predict env ⟨1, true, 3⟩ slot [s] =
        ([PoolOp.acquire slot, PoolOp.release slot],
         Except.ok ([sampleResult s [InfEntry.fromData m.data] [od] none],
                    [mkRecord (sampleResult s [InfEntry.fromData m.data] [od] none)]))) ∧
    (∀ (env : LEnv) (slot : Nat) (s : Sample) (e1 e2 e3 : String),
      env.inIface = none → resetOk env →
      env.flowCall 0 = Except.error e1 → env.flowCall 1 = Except.error e2 →
      env.flowCall 2 = Except.error e3 → hasKV s "id" = true →
      predict env ⟨1, true, 3⟩ slot [s] =
        ([PoolOp.acquire slot, PoolOp.release slot],
         Except.ok ([sampleResult s [] [] (some e3)],
                    [mkRecord (sampleResult s [] [] (some e3))]))) ∧
    (∀ (env : LEnv) (slot : Nat) (s : Sample) (m : Msg) (od : Value) (f1 f2 f3 : String),
      env.inIface = none → env.outIface = none → resetOk env →
      env.flowCall 0 = Except.ok m → lookupKV m.data "output_data" = some od →
      env.flowCall 1 = Except.error f1 → env.flowCall 2 = Except.error f2 →
      env.flowCall 3 = Except.error f3 → hasKV s "id" = true →
      predict env ⟨2, true, 3⟩ slot [s] =
        ([PoolOp.acquire slot, PoolOp.release slot],
         Except.ok ([sampleResult s [InfEntry.fromData m.data] [od] (some f3)],
                    [mkRecord (sampleResult s [InfEntry.fromData m.data] [od] (some f3))]))) := by
  refine ⟨?_, ?_, ?_⟩
  · intro env slot s e1 e2 m od hin0 hout0 hr h0 h1 h2 hod hid
    have hA : attemptLoop env 3 0 none = (3, none, some (m, od)) := by
      simp [attemptLoop, tryAttempt, h0, h1, h2, hod, hout0]
    have hrl : repLoop env ⟨1, true, 3⟩ true 1 0 0 [] [] =
        Except.ok (3, 1, [InfEntry.fromData m.data], [od], none) := by
      simp [repLoop, hA, hr 0]
    simp [predict, processList, processSample, hin0, hid, hrl, sampleResult]
  · intro env slot s e1 e2 e3 hin0 hr h0 h1 h2 hid
    have hA : attemptLoop env 3 0 none = (3, some e3, none) := by
      simp [attemptLoop, tryAttempt, h0, h1, h2]
    have hrl : repLoop env ⟨1, true, 3⟩ true 1 0 0 [] [] =
        Except.ok (3, 0, [], [], some e3) := by
      simp [repLoop, hA]
    simp [predict, processList, processSample, hin0, hid, hrl, sampleResult]
  · intro env slot s m od f1 f2 f3 hin0 hout0 hr h0 hod h1 h2 h3 hid
    have hA0 : attemptLoop env 3 0 none = (1, none, some (m, od)) := by
      simp [attemptLoop, tryAttempt, h0, hod, hout0]
    have hA1 : attemptLoop env 3 1 none = (4, some f3, none) := by
      simp [attemptLoop, tryAttempt, h1, h2, h3]
    have hrl : repLoop env ⟨2, true, 3⟩ true 2 0 0 [] [] =
        Except.ok (4, 1, [InfEntry.fromData m.data], [od], some f3) := by
      simp [repLoop, hA0, hA1, hr 0]
    simp [predict, processList, processSample, hin0, hid, hrl, sampleResult]

/-- Claim C5 witness: the three legs at concrete slot behaviours. -/
theorem c5_witness :
    predict ⟨none,
        fun n => if n = 2 then Except.ok ⟨[("output_data", Value.vnull)]⟩
                 else Except.error "e",
        none, fun _ => Except.ok ()⟩
      ⟨1, true, 3⟩ 0 [[("id", SVal.base Value.vnull)]] =
      ([PoolOp.acquire 0, PoolOp.release 0],
       Except.ok ([sampleResult [("id", SVal.base Value.vnull)]
                     [InfEntry.fromData [("output_data", Value.vnull)]] [Value.vnull] none],
                  [mkRecord (sampleResult [("id", SVal.base Value.vnull)]
                     [InfEntry.fromData [("output_data", Value.vnull)]] [Value.vnull] none)])) ∧
    predict ⟨none, fun _ => Except.error "boom", none, fun _ => Except.ok ()⟩
      ⟨1, true, 3⟩ 1 [[("id", SVal.base Value.vnull)]] =
      ([PoolOp.acquire 1, PoolOp.release 1],
       Except.ok ([sampleResult [("id", SVal.base Value.vnull)] [] [] (some "boom")],
                  [mkRecord (sampleResult [("id", SVal.base Value.vnull)] [] [] (some "boom"))])) ∧
    predict ⟨none,
        fun n => if n = 0 then Except.ok ⟨[("output_data", Value.vnull)]⟩
                 else Except.error "f",
        none, fun _ => Except.ok ()⟩
      ⟨2, true, 3⟩ 2 [[("id", SVal.base Value.vnull)]] =
      ([PoolOp.acquire 2, PoolOp.release 2],
       Except.ok ([sampleResult [("id", SVal.base Value.vnull)]
                     [InfEntry.fromData [("output_data", Value.vnull)]] [Value.vnull] (some "f")],
                  [mkRecord (sampleResult [("id", SVal.base Value.vnull)]
                     [InfEntry.fromData [("output_data", Value.vnull)]] [Value.vnull] (some "f"))])) :=
  ⟨c5_retry_budget.1
      ⟨none, fun n => if n = 2 then Except.ok ⟨[("output_data", Value.vnull)]⟩
                      else Except.error "e", none, fun _ => Except.ok ()⟩
      0 [("id", SVal.base Value.vnull)] "e" "e" ⟨[("output_data", Value.vnull)]⟩
      Value.vnull rfl rfl (fun n => rfl) rfl rfl rfl rfl rfl,
   c5_retry_budget.2.1
      ⟨none, fun _ => Except.error "boom", none, fun _ => Except.ok ()⟩
      1 [("id", SVal.base Value.vnull)] "boom" "boom" "boom"
      rfl (fun n => rfl) rfl rfl rfl rfl,
   c5_retry_budget.2.2
      ⟨none, fun n => if n = 0 then Except.ok ⟨[("output_data", Value.vnull)]⟩
                      else Except.error "f", none, fun _ => Except.ok ()⟩
      2 [("id", SVal.base Value.vnull)] ⟨[("output_data", Value.vnull)]⟩
      Value.vnull "f" "f" "f" rfl rfl (fun n => rfl) rfl rfl rfl rfl rfl rfl⟩

/-- Claim C6 counterexample: with fault_tolerant_mode=false and a failing
flow, `predict` acquires the slot, the exception propagates, and the slot id
is never returned to the pool. -/
theorem c6_counterexample :
    predict ⟨none, fun _ => Except.error "boom", none, fun _ => Except.ok ()⟩
      ⟨1, false, 1⟩ 5 [[("id", SVal.base Value.vnull)]] =
      ([PoolOp.acquire 5], Except.error "boom") := rfl

/-- Claim C6 (amended): whenever `predict` returns normally its pool trace is
exactly [acquire slot, release slot] — the acquired id is returned, and only
that id; and in fault-tolerant mode with a well-behaved input interface and
resets and an "id" key on the sample, `predict` does return normally — so the
slot is released even when repetitions terminally fail.  When an exception
propagates (as in non-fault-tolerant mode with a failing flow), the slot is
not returned. -/
theorem c6_slot_release :
    (∀ (env : LEnv) (cfg : Config) (slot : Nat) (batch : List Sample) r,
      (predict env cfg slot batch).2 = Except.ok r →
      (predict env cfg slot batch).1 = [PoolOp.acquire slot, PoolOp.release slot]) ∧
    (∀ (env : LEnv) (cfg : Config) (slot : Nat) (s : Sample),
      cfg.faultTolerantMode = true → inIfaceTotal env → resetOk env →
      hasKV s "id" = true →
      (predict env cfg slot [s]).1 = [PoolOp.acquire slot, PoolOp.release slot]) := by
  constructor
  · intro env cfg slot batch r h
    unfold predict at h ⊢
    by_cases hl : batch.length ≠ 1
    · rw [if_pos hl] at h
      simp at h
    · rw [if_neg hl] at h ⊢
      cases hp : processList env cfg batch with
      | error e => rw [hp] at h; simp at h
      | ok b2 => simp only [hp]
  · intro env cfg slot s hft hin hr hid
    obtain ⟨infs, hrs, er, h⟩ := predict_ft_ok env cfg slot s hft hin hr hid
    rw [h]

/-- Claim C6 witness: a normally-returning call releases the acquired slot;
a fault-tolerant call whose every attempt fails still releases it. -/
theorem c6_witness :
    (predict ⟨none, fun _ => Except.ok ⟨[("output_data", Value.vnull)]⟩, none,
        fun _ => Except.ok ()⟩ ⟨1, true, 1⟩ 7 [[("id", SVal.base Value.vnull)]]).1 =
      [PoolOp.acquire 7, PoolOp.release 7] ∧
    (predict ⟨none, fun _ => Except.error "boom", none, fun _ => Except.ok ()⟩
        ⟨1, true, 1⟩ 8 [[("id", SVal.base Value.vnull)]]).1 =
      [PoolOp.acquire 8, PoolOp.release 8] :=
  ⟨c6_slot_release.1
      ⟨none, fun _ => Except.ok ⟨[("output_data", Value.vnull)]⟩, none,
       fun _ => Except.ok ()⟩ ⟨1, true, 1⟩ 7 [[("id", SVal.base Value.vnull)]] _ rfl,
   c6_slot_release.2
      ⟨none, fun _ => Except.error "boom", none, fun _ => Except.ok ()⟩
      ⟨1, true, 1⟩ 8 [("id", SVal.base Value.vnull)] rfl
      (fun f s h => Option.noConfusion h) (fun n => rfl) rfl⟩

/-- Claim C10: whenever `predict` on a 1-element batch returns normally, the
returned batch is the input batch with exactly the three result keys
"inference_outputs", "human_readable_outputs" and "error" set on the sample
(each holding a value of the corresponding kind), every other key of the
sample unchanged, and the written records are exactly the per-sample
projections onto the record keys. -/
theorem c10_predict_frame (env : LEnv) (cfg : Config) (slot : Nat) (s : Sample)
    (batch2 : List Sample) (recs : List (List (String × Option SVal)))
    (h : (predict env cfg slot [s]).2 = Except.ok (batch2, recs)) :
    ∃ s2, batch2 = [s2] ∧ recs = [mkRecord s2] ∧
      (∃ l, lookupKV s2 "inference_outputs" = some (SVal.infOuts l)) ∧
      (∃ l, lookupKV s2 "human_readable_outputs" = some (SVal.hrOuts l)) ∧
      (∃ e, lookupKV s2 "error" = some (SVal.err e)) ∧
      (∀ k, k ≠ "inference_outputs" → k ≠ "human_readable_outputs" → k ≠ "error" →
        lookupKV s2 k = lookupKV s k) := by
  unfold predict at h
  rw [if_neg (by simp)] at h
  cases hp : processList env cfg [s] with
  | error e => rw [hp] at h; simp at h
  | ok b2 =>
      rw [hp] at h
      simp only [Except.ok.injEq, Prod.mk.injEq] at h
      obtain ⟨hb, hrecs⟩ := h
      unfold processList at hp
      cases hps : processSample env cfg s with
      | error e => rw [hps] at hp; simp at hp
      | ok s2 =>
          rw [hps] at hp
          simp only [processList, Except.ok.injEq] at hp
          obtain ⟨infs, hrs, er, hshape⟩ := processSample_ok_shape env cfg s s2 hps
          refine ⟨s2, ?_, ?_, ?_, ?_, ?_, ?_⟩
          · rw [← hb, ← hp]
          · rw [← hrecs, ← hp]
            rfl
          · exact ⟨infs, by rw [hshape]; exact sampleResult_inf s infs hrs er⟩
          · exact ⟨hrs, by rw [hshape]; exact sampleResult_hr s infs hrs er⟩
          · exact ⟨er, by rw [hshape]; exact sampleResult_error s infs hrs er⟩
          · intro k h1 h2 h3
            rw [hshape]
            exact sampleResult_frame s infs hrs er k h1 h2 h3

/-- Claim C10 witness: a concrete normally-returning call, with a
pre-existing "goal" key left unchanged. -/
theorem c10_witness :
    ∃ s2,
      [[("id", SVal.base Value.vnull), ("goal", SVal.base (Value.vstr "g")),
        ("inference_outputs",
          SVal.infOuts [InfEntry.fromData [("output_data", Value.vnull)]]),
        ("human_readable_outputs", SVal.hrOuts [Value.vnull]),
        ("error", SVal.err none)]] = [s2] ∧
      [mkRecord ([("id", SVal.base Value.vnull), ("goal", SVal.base (Value.vstr "g")),
        ("inference_outputs",
          SVal.infOuts [InfEntry.fromData [("output_data", Value.vnull)]]),
        ("human_readable_outputs", SVal.hrOuts [Value.vnull]),
        ("error", SVal.err none)] : Sample)] = [mkRecord s2] ∧
      (∃ l, lookupKV s2 "inference_outputs" = some (SVal.infOuts l)) ∧
      (∃ l, lookupKV s2 "human_readable_outputs" = some (SVal.hrOuts l)) ∧
      (∃ e, lookupKV s2 "error" = some (SVal.err e)) ∧
      (∀ k, k ≠ "inference_outputs" → k ≠ "human_readable_outputs" → k ≠ "error" →
        lookupKV s2 k =
          lookupKV [("id", SVal.base Value.vnull),
            ("goal", SVal.base (Value.vstr "g"))] k) :=
  c10_predict_frame
    ⟨none, fun _ => Except.ok ⟨[("output_data", Value.vnull)]⟩, none,
     fun _ => Except.ok ()⟩ ⟨1, true, 1⟩ 0
    [("id", SVal.base Value.vnull), ("goal", SVal.base (Value.vstr "g"))] _ _ rfl
